import Mathlib

/-!
Verification of the UserSync reconciliation engine, its credential cache,
and the mock identity API it talks to.  Every definition below is a shallow
embedding of a function in the JavaScript sources (src/UserSync/promises.js,
src/UserSync/token.js, src/SyncAPI/server.js); machine time is modelled as
epoch milliseconds (Nat), JS objects mapping string keys to string values as
association lists with unique keys, and promises as explicit outcome values
(resolved / rejected / pending, where pending means the promise never
settles).
-/

/-- A JS object used as a string-to-string map (`usersDB` / `usersLDAP` in
promises.js): association list, keys unique, insertion order kept. -/
abbrev StrMap := List (String × String)

/-- JS truthiness of looking a key up in a string-valued object:
`obj[k]` is falsy when the key is absent (undefined) or maps to the empty
string, the only falsy string. -/
def jsTruthy : Option String → Bool
  | none => false
  | some s => !(s == "")

/-- The body of the `Object.keys(usersLDAP).map` loop in `syncUsers`
(promises.js): a creation request `{username: k, surname: usersLDAP[k]}` is
issued exactly for those LDAP entries whose key fails the truthiness test
`!usersDB[objectKey]` — absent from the datastore map or mapped to a falsy
surname.  Keys of a JS object are unique, so iterating the entry list is the
iteration over `Object.keys`. -/
def syncUsersRequests (usersDB usersLDAP : StrMap) : StrMap :=
  usersLDAP.filter (fun p => !(jsTruthy (usersDB.lookup p.1)))

/-- Events observable in one run of `syncUsers` (promises.js lines 166-210):
the POST creation requests fired inside the loop, the `resolve(true)` call,
and the asynchronous `request` callbacks that later deliver each creation's
HTTP status. -/
inductive SyncEv where
  | createRequest (username surname : String)
  | resolve (value : Bool)
  | createResponse (username : String) (statusCode : Nat)
deriving DecidableEq, Repr

/-- Execution trace of `syncUsers` on a dual-success input once the token
resolves: the loop issues every creation request synchronously, the executor
then runs `resolve(true)` (the source comments that it "will probably resolve
before we finish getting all the responses"), and only afterwards do the
`request` callbacks run with the creation responses. -/
def syncUsersTrace (usersDB usersLDAP : StrMap) (responses : List (String × Nat)) :
    List SyncEv :=
  ((syncUsersRequests usersDB usersLDAP).map fun p => SyncEv.createRequest p.1 p.2)
    ++ [SyncEv.resolve true]
    ++ (responses.map fun p => SyncEv.createResponse p.1 p.2)

/-- The token object held in the module variable `auth` of token.js: the
JSON body returned by GET /token (`access_token`, `token_type`,
`expires_in`) plus the `created` timestamp stamped by `createToken`. -/
structure Auth where
  access_token : Nat
  token_type : String
  expires_in : Nat
  created : Nat
deriving DecidableEq, Repr

/-- The age test of token.js: `time = +Math.abs((auth.created-Date.now())/1000)`
compared as `time >= auth.expires_in`.  With integer millisecond timestamps
the real-number comparison |created - now| / 1000 ≥ expires_in is exactly
|created - now| ≥ 1000 * expires_in. -/
def tokenAgeExpired (a : Auth) (now : Nat) : Bool :=
  1000 * a.expires_in ≤ ((a.created : Int) - (now : Int)).natAbs

/-- The branch condition `!auth || time >= auth.expires_in` of getToken. -/
def refreshNeeded : Option Auth → Nat → Bool
  | none, _ => true
  | some a, now => tokenAgeExpired a now

/-- How one `getToken()` promise settles.  `pending` records that neither
`resolve` nor `reject` is ever called on it. -/
inductive TokenOutcome where
  | resolved (a : Auth)
  | rejected (e : String)
  | pending
deriving DecidableEq, Repr

/-- Result of one `getToken()` call: the module variable `auth` after the
call settles its work, how the returned promise settles, and how many
`createToken` refresh requests the call issued. -/
structure TokenCall where
  state : Option Auth
  outcome : TokenOutcome
  refreshCalls : Nat
deriving DecidableEq, Repr

/-- The refresh branch of getToken: `createToken().then(t => {auth = t;
resolve(auth);}).catch(err => console.log(...))`.  On success the token is
stored in `auth` and the stored value resolved; on failure the catch handler
only logs, so neither `resolve` nor `reject` runs and the promise stays
pending with `auth` unchanged. -/
def getTokenRefresh (held : Option Auth) (refresh : Except String Auth) : TokenCall :=
  match refresh with
  | Except.ok t => { state := some t, outcome := TokenOutcome.resolved t, refreshCalls := 1 }
  | Except.error _ => { state := held, outcome := TokenOutcome.pending, refreshCalls := 1 }

/-- One `getToken()` call from token.js (the inline copy in promises.js is
identical): given the held `auth`, the current time, and the outcome the
refresh request would have, it refreshes when the token is absent or its age
test fires, and otherwise resolves the held token unchanged. -/
def getTokenStep (held : Option Auth) (now : Nat) (refresh : Except String Auth) :
    TokenCall :=
  match held with
  | none => getTokenRefresh none refresh
  | some a =>
      if tokenAgeExpired a now then getTokenRefresh (some a) refresh
      else { state := some a, outcome := TokenOutcome.resolved a, refreshCalls := 0 }

/-- The response `createToken` sees from GET /token: the transport error (if
any), the HTTP status code, and the token JSON body. -/
structure TokenFetch where
  error : Option String
  statusCode : Nat
  access_token : Nat
  token_type : String
  expires_in : Nat
deriving DecidableEq, Repr

/-- The `request` callback of `createToken` (token.js): on no transport
error and status 200 it parses the body, stamps `created = Date.now()` and
resolves; otherwise it rejects with the response. -/
def createTokenResult (r : TokenFetch) (now : Nat) : Except String Auth :=
  match r.error with
  | none =>
      if r.statusCode == 200 then
        Except.ok { access_token := r.access_token, token_type := r.token_type,
                    expires_in := r.expires_in, created := now }
      else Except.error "non-success status"
  | some e => Except.error e

/-- Ledger for interleaved `getToken` calls against the shared module
variable `auth`: the held token and the number of `createToken` refresh
requests issued so far. -/
structure RefreshLedger where
  auth : Option Auth
  refreshCalls : Nat
deriving DecidableEq, Repr

/-- Atomic steps of the token.js code as they interleave on the event loop:
`check now` is the synchronous executor body of one `getToken()` call (it
reads `auth` and, when the token is absent or expired, immediately calls
`createToken`, i.e. issues one refresh request); `refreshDone t` is the
`.then` continuation of a `createToken` call storing the token in `auth`.
The source keeps no in-flight flag — the only shared state is `auth`. -/
inductive AcquireEv where
  | check (now : Nat)
  | refreshDone (t : Auth)
deriving DecidableEq, Repr

/-- Effect of one interleaved step on the shared ledger. -/
def acquireStep (s : RefreshLedger) : AcquireEv → RefreshLedger
  | AcquireEv.check now =>
      if refreshNeeded s.auth now then { s with refreshCalls := s.refreshCalls + 1 } else s
  | AcquireEv.refreshDone t => { s with auth := some t }

/-- Run a schedule of interleaved steps. -/
def acquireRun (s : RefreshLedger) : List AcquireEv → RefreshLedger
  | [] => s
  | e :: rest => acquireRun (acquireStep s e) rest

/-- How the `Promise.all([usersDB, usersLDAP]).then(syncUsers)` chain of a
cycle turns out. -/
inductive CycleOutcome where
  | resolvedTrue
  | rejected (e : String)
  | pending
deriving DecidableEq, Repr

/-- One scheduled cycle (promises.js lines 5-20 plus syncUsers): the
creation requests it issues, how the syncUsers promise settles, and whether
the final catch of the Promise.all chain ("Failed to synchronize") ever
observed a rejection. -/
structure CycleRun where
  requests : StrMap
  outcome : CycleOutcome
  allChainRejected : Bool
deriving DecidableEq, Repr

/-- The `.catch(err => console.log(...))` attached to each reader in the
cycle body: it returns undefined, turning a rejected reader promise into one
fulfilled with undefined (modelled as none). -/
def caught : Except String StrMap → Option StrMap
  | Except.ok m => some m
  | Except.error _ => none

/-- One cycle of the setInterval body, given the settled results of the two
reads and of `getToken`.  Both reader promises are wrapped in logging catch
handlers, so `Promise.all` always fulfils and `syncUsers` always runs.
Inside `syncUsers`: if the token refresh fails, `getToken` stays pending and
so does the cycle; if `usersLDAP` is undefined, `Object.keys(undefined)`
throws, the throw is caught by the token catch handler and the cycle promise
stays pending; if `usersDB` is undefined, evaluating `usersDB[objectKey]`
throws on the first key (with an empty LDAP set the loop body never runs and
the cycle resolves true); otherwise the loop issues the creation requests
and the cycle resolves true.  No path rejects the chain. -/
def runCycle (dbRes ldapRes : Except String StrMap) (tok : Except String Auth) :
    CycleRun :=
  match tok with
  | Except.error _ => { requests := [], outcome := CycleOutcome.pending, allChainRejected := false }
  | Except.ok _ =>
      match caught ldapRes, caught dbRes with
      | none, _ => { requests := [], outcome := CycleOutcome.pending, allChainRejected := false }
      | some ldap, none =>
          if ldap.isEmpty then
            { requests := [], outcome := CycleOutcome.resolvedTrue, allChainRejected := false }
          else
            { requests := [], outcome := CycleOutcome.pending, allChainRejected := false }
      | some ldap, some db =>
          { requests := syncUsersRequests db ldap, outcome := CycleOutcome.resolvedTrue,
            allChainRejected := false }

/-- Number of reconciliation cycles active at time t (milliseconds scaled
out: all times in the same unit) when the scheduler is
`setInterval(body, T)` with cycle duration d: the k-th tick fires at time
k * T for every k ≥ 1 and starts a cycle unconditionally — the source
installs no overlap guard — and that cycle is active during
[k * T, k * T + d). -/
def activeCycleCount (T d t : Nat) : Nat :=
  ((List.range (t / T + 1)).filter
    (fun k => decide (1 ≤ k) && decide (k * T ≤ t) && decide (t < k * T + d))).length

/-- Signals emitted by the LDAP search result stream consumed in
`getUsersLDAP` (promises.js lines 112-163): a search entry with the
common-name and surname attributes, an error event, or the end-of-results
event. -/
inductive LdapSignal where
  | searchEntry (cn sn : String)
  | errorSig (msg : String)
  | endSig
deriving DecidableEq, Repr

/-- JS object assignment `usersLDAP[cn] = sn`: overwrite in place when the
key exists, append otherwise. -/
def objSet (m : StrMap) (k v : String) : StrMap :=
  if m.any (fun p => p.1 == k) then m.map (fun p => if p.1 == k then (k, v) else p)
  else m ++ [(k, v)]

/-- How the `getUsersLDAP` promise settles. -/
inductive SearchOutcome where
  | resolved (users : StrMap)
  | rejected (msg : String)
  | pending
deriving DecidableEq, Repr

/-- The three event handlers of the search stream, replayed over the signal
sequence with the promise settling at most once: each searchEntry mutates
the accumulating object; the first errorSig rejects (later signals can no
longer change the settled promise); the first endSig resolves the object
accumulated so far; a stream that never terminates leaves the promise
pending. -/
def processSearch (acc : StrMap) : List LdapSignal → SearchOutcome
  | [] => SearchOutcome.pending
  | LdapSignal.searchEntry cn sn :: rest => processSearch (objSet acc cn sn) rest
  | LdapSignal.errorSig m :: _ => SearchOutcome.rejected m
  | LdapSignal.endSig :: _ => SearchOutcome.resolved acc

/-- One run of `getUsersLDAP`: a bind error rejects before any search; a
search-setup error rejects next; otherwise the outcome is decided by the
event stream starting from an empty object. -/
def getUsersLDAPRun (bindErr searchErr : Option String) (sigs : List LdapSignal) :
    SearchOutcome :=
  match bindErr with
  | some e => SearchOutcome.rejected e
  | none =>
      match searchErr with
      | some e => SearchOutcome.rejected e
      | none => processSearch [] sigs

/-- Whether the first terminating signal (errorSig or endSig) of the stream
is an error. -/
def errorBeforeEnd : List LdapSignal → Bool
  | [] => false
  | LdapSignal.searchEntry _ _ :: rest => errorBeforeEnd rest
  | LdapSignal.errorSig _ :: _ => true
  | LdapSignal.endSig :: _ => false

/-- Whether the first terminating signal of the stream is the
end-of-results signal. -/
def endBeforeError : List LdapSignal → Bool
  | [] => false
  | LdapSignal.searchEntry _ _ :: rest => endBeforeError rest
  | LdapSignal.errorSig _ :: _ => false
  | LdapSignal.endSig :: _ => true

/-- A token record stored in the server's `tokens` table (server.js):
`expires_in` is an absolute epoch-millisecond deadline
(`Date.now() + expiration`). -/
structure TokenRec where
  expires_in : Nat
  access_token : Nat
  token_type : String
deriving DecidableEq, Repr

/-- A record of the server's `users` array. -/
structure UserRec where
  username : String
  surname : String
  last_modified : Nat
deriving DecidableEq, Repr

/-- The parsed JSON body of a POST /users request; a missing field is none,
and the handler tests each field with JS truthiness (`!input.username`). -/
structure PostBody where
  username : Option String
  surname : Option String
deriving DecidableEq, Repr

/-- The body of an HTTP response from the mock API. -/
inductive RespBody where
  | user (u : UserRec)
  | text (s : String)
  | errObj (msg : String)
deriving DecidableEq, Repr

/-- An HTTP response as the server.js handlers produce it.  The handlers
write `res.status = n`, which assigns a number over Express's `status`
method instead of calling it; the response's transmitted status code
(`res.statusCode`, what `res.send` puts on the wire and what the sync
client reads as `res.statusCode`) is never touched and stays at its default
200.  `statusProp` records the number assigned to the property and
`wireStatus` the status actually sent. -/
structure HttpResponse where
  statusProp : Nat
  wireStatus : Nat
  body : RespBody
deriving DecidableEq, Repr

/-- The 'Missing fields:' message built by the POST /users handler. -/
def missingFieldsMsg (userMissing surnameMissing : Bool) : String :=
  "Missing fields:" ++ (if userMissing then " username " else "")
    ++ (if surnameMissing then " surname " else "")

/-- The POST /users handler (server.js lines 70-115): look the Authorization
header up in the tokens table; on a known token with `expires_in > Date.now()`
validate the body fields by truthiness, answering 400 with the message or
201 with the new record appended to `users` (stamping
`last_modified = Date.now()`); otherwise answer 401.  Every branch assigns
`res.status` as a property, so the wire status is 200 throughout.  Returns
the response and the updated users array. -/
def postUsers (tokens : List (String × TokenRec)) (authHeader : Option String)
    (input : PostBody) (users : List UserRec) (now : Nat) :
    HttpResponse × List UserRec :=
  match authHeader.bind (fun h => tokens.lookup h) with
  | some tk =>
      if now < tk.expires_in then
        let userMissing := !(jsTruthy input.username)
        let surnameMissing := !(jsTruthy input.surname)
        if userMissing || surnameMissing then
          ({ statusProp := 400, wireStatus := 200,
             body := RespBody.text (missingFieldsMsg userMissing surnameMissing) }, users)
        else
          let newUser : UserRec :=
            { username := input.username.getD "", surname := input.surname.getD "",
              last_modified := now }
          ({ statusProp := 201, wireStatus := 200, body := RespBody.user newUser },
            users ++ [newUser])
      else
        ({ statusProp := 401, wireStatus := 200, body := RespBody.errObj "Unauthorized!" },
          users)
  | none =>
      ({ statusProp := 401, wireStatus := 200, body := RespBody.errObj "Unauthorized!" },
        users)

/-- The token-cleanup sweep (server.js lines 13-21): iterate the tokens
table and delete every entry whose `expires_in` is greater than the current
time; the surviving entries are exactly those with `expires_in ≤ now`. -/
def cleanupTokens (tokens : List (String × TokenRec)) (now : Nat) :
    List (String × TokenRec) :=
  tokens.filter (fun p => !(decide (p.2.expires_in > now)))

/-- A sample credential used in concrete instantiations. -/
def sampleAuth : Auth :=
  { access_token := 123456, token_type := "Bearer", expires_in := 900000, created := 0 }

/-- A sample server-side tokens table used in concrete instantiations. -/
def sampleTokens : List (String × TokenRec) :=
  [("Bearer 123456", { expires_in := 1000, access_token := 123456, token_type := "Bearer" })]

/-- C1 counterexample: with datastore map {alice ↦ ""} and directory map
{alice ↦ "Smith"}, the key "alice" is present in both identity sets, yet
`syncUsers` submits it for creation, because the membership test
`!usersDB[objectKey]` fires on the falsy empty-string surname. -/
theorem syncUsers_falsy_key_submitted_cex :
    "alice" ∈ ([("alice", "")] : StrMap).map Prod.fst ∧
    "alice" ∈ ([("alice", "Smith")] : StrMap).map Prod.fst ∧
    ("alice", "Smith") ∈ syncUsersRequests [("alice", "")] [("alice", "Smith")] := by
  refine ⟨?_, ?_, ?_⟩ <;> decide

/-- C1 amended: the keys submitted for creation are exactly the
directory-side keys whose datastore-side lookup is falsy — absent, or
present but mapped to the empty string — and, the directory keys being
unique, each such key is submitted exactly once.  This coincides with the
plain set difference only when no datastore surname is falsy. -/
theorem syncUsers_requests_characterization (db ldap : StrMap)
    (h : (ldap.map Prod.fst).Nodup) :
    ((syncUsersRequests db ldap).map Prod.fst).Nodup ∧
    ∀ k s, (k, s) ∈ syncUsersRequests db ldap ↔
      (k, s) ∈ ldap ∧ jsTruthy (db.lookup k) = false := by
  constructor
  · exact h.sublist (List.Sublist.map Prod.fst (List.filter_sublist ldap))
  · intro k s
    simp [syncUsersRequests, List.mem_filter]

/-- C1 witness: at a concrete input with unique directory keys, the
characterization yields that bob (absent from the datastore) is submitted. -/
theorem syncUsers_requests_characterization_witness :
    ("bob", "Jones") ∈ syncUsersRequests [("alice", "Smith")] [("alice", "Smith"), ("bob", "Jones")] := by
  exact ((syncUsers_requests_characterization [("alice", "Smith")]
    [("alice", "Smith"), ("bob", "Jones")] (by decide)).2 "bob" "Jones").mpr
    ⟨by decide, by decide⟩

/-- C2 counterexample: with directory {bob ↦ "Jones"}, empty datastore and
the creation response for bob arriving with status 200, the trace of
`syncUsers` places `resolve(true)` (position 1) before the creation
response (position 2): the cycle result is the bare Boolean true, delivered
before the creation call has completed, not a CycleResult record. -/
theorem syncUsers_early_resolve_cex :
    (syncUsersTrace [] [("bob", "Jones")] [("bob", 200)]).get? 1 =
      some (SyncEv.resolve true) ∧
    (syncUsersTrace [] [("bob", "Jones")] [("bob", 200)]).get? 2 =
      some (SyncEv.createResponse "bob" 200) := by
  refine ⟨?_, ?_⟩ <;> decide

/-- C2 amended: on every dual-success cycle the trace of `syncUsers` splits
as requests, then `resolve(true)`, then the creation responses — the
promise resolves with the constant Boolean true as soon as all creation
requests are issued and before any creation response is processed, carrying
no attempted/created/failures information. -/
theorem syncUsers_trace_shape (db ldap : StrMap) (rs : List (String × Nat)) :
    ∃ pre post, syncUsersTrace db ldap rs = pre ++ SyncEv.resolve true :: post ∧
      (∀ e ∈ pre, ∃ u s, e = SyncEv.createRequest u s) ∧
      (∀ e ∈ post, ∃ u c, e = SyncEv.createResponse u c) := by
  refine ⟨(syncUsersRequests db ldap).map fun p => SyncEv.createRequest p.1 p.2,
    rs.map fun p => SyncEv.createResponse p.1 p.2, ?_, ?_, ?_⟩
  · simp [syncUsersTrace]
  · intro e he
    rcases List.mem_map.mp he with ⟨p, _, rfl⟩
    exact ⟨p.1, p.2, rfl⟩
  · intro e he
    rcases List.mem_map.mp he with ⟨p, _, rfl⟩
    exact ⟨p.1, p.2, rfl⟩

/-- C2 witness: the trace split at a concrete dual-success input. -/
theorem syncUsers_trace_shape_witness :
    ∃ pre post,
      syncUsersTrace [("alice", "Smith")] [("alice", "Smith"), ("bob", "Jones")] [("bob", 200)] =
        pre ++ SyncEv.resolve true :: post ∧
      (∀ e ∈ pre, ∃ u s, e = SyncEv.createRequest u s) ∧
      (∀ e ∈ post, ∃ u c, e = SyncEv.createResponse u c) :=
  syncUsers_trace_shape [("alice", "Smith")] [("alice", "Smith"), ("bob", "Jones")] [("bob", 200)]

/-- C10: the cleanup sweep keeps exactly the table entries with
expires_in ≤ now; equivalently it deletes exactly those whose expires_in
lies in the future (tokens that have not yet expired), and an entry past
its expiry is never removed. -/
theorem cleanupTokens_removes_unexpired (tokens : List (String × TokenRec)) (now : Nat) :
    ∀ p, p ∈ cleanupTokens tokens now ↔ p ∈ tokens ∧ p.2.expires_in ≤ now := by
  intro p
  simp [cleanupTokens, List.mem_filter, Nat.not_lt]

/-- C10 witness: in a concrete table at now = 10 the entry with deadline 5
(already expired) survives the sweep. -/
theorem cleanupTokens_removes_unexpired_witness :
    ("a", ({ expires_in := 5, access_token := 1, token_type := "B" } : TokenRec)) ∈
      cleanupTokens
        [("a", { expires_in := 5, access_token := 1, token_type := "B" }),
         ("b", { expires_in := 50, access_token := 2, token_type := "B" })] 10 := by
  exact (cleanupTokens_removes_unexpired _ 10 _).mpr ⟨by decide, by decide⟩

/-- C3 counterexample: the datastore read fails (network error) while the
directory read succeeds with {alice ↦ "Smith"} and the token is available.
Zero creation calls are issued, but the failure is not surfaced as the
cycle's outcome: the reader's catch handler converts the rejection into a
resolved undefined, Promise.all fulfils, the final "Failed to synchronize"
catch never fires, and the syncUsers promise stays pending forever. -/
theorem cycle_reader_failure_swallowed_cex :
    runCycle (Except.error "ECONNREFUSED") (Except.ok [("alice", "Smith")])
        (Except.ok sampleAuth) =
      { requests := [], outcome := CycleOutcome.pending, allChainRejected := false } ∧
    ∀ e, CycleOutcome.pending ≠ CycleOutcome.rejected e := by
  constructor
  · rfl
  · intro e h
    exact CycleOutcome.noConfusion h

/-- C3 amended: whenever the directory read or the datastore read fails,
zero creation calls are issued in that cycle, but the failure is silently
swallowed rather than surfaced: the Promise.all chain never observes a
rejection and the cycle's outcome is never a rejection (it is either the
bare resolved true or a promise that never settles). -/
theorem cycle_reader_failure_no_creations (dbRes ldapRes : Except String StrMap)
    (tok : Except String Auth)
    (h : (∃ e, dbRes = Except.error e) ∨ (∃ e, ldapRes = Except.error e)) :
    (runCycle dbRes ldapRes tok).requests = [] ∧
    (runCycle dbRes ldapRes tok).allChainRejected = false ∧
    ∀ e, (runCycle dbRes ldapRes tok).outcome ≠ CycleOutcome.rejected e := by
  rcases tok with te | tv
  · simp [runCycle]
  · rcases h with ⟨e, rfl⟩ | ⟨e, rfl⟩
    · rcases ldapRes with le | lv
      · simp [runCycle, caught]
      · by_cases hemp : lv.isEmpty <;> simp [runCycle, caught, hemp]
    · simp [runCycle, caught]

/-- C3 witness: the amended statement at the concrete failing-datastore
input. -/
theorem cycle_reader_failure_no_creations_witness :
    (runCycle (Except.error "ECONNREFUSED") (Except.ok [("alice", "Smith")])
      (Except.ok sampleAuth)).requests = [] :=
  (cycle_reader_failure_no_creations (Except.error "ECONNREFUSED")
    (Except.ok [("alice", "Smith")]) (Except.ok sampleAuth)
    (Or.inl ⟨"ECONNREFUSED", rfl⟩)).1

/-- C4: the acquire policy of getToken.  When no token is held or the age
test `time >= auth.expires_in` fires (the comparison taken verbatim from
the source), the call issues exactly one refresh and, when the refresh
succeeds with t, stores t in `auth` and resolves exactly the stored token;
otherwise it issues zero refresh calls, leaves `auth` unchanged and
resolves the held token unchanged. -/
theorem getToken_acquire_policy (held : Option Auth) (now : Nat)
    (r : Except String Auth) :
    (refreshNeeded held now = true →
      (getTokenStep held now r).refreshCalls = 1 ∧
      ∀ t, r = Except.ok t →
        (getTokenStep held now r).state = some t ∧
        (getTokenStep held now r).outcome = TokenOutcome.resolved t) ∧
    (refreshNeeded held now = false →
      (getTokenStep held now r).refreshCalls = 0 ∧
      (getTokenStep held now r).state = held ∧
      ∃ a, held = some a ∧ (getTokenStep held now r).outcome = TokenOutcome.resolved a) := by
  rcases held with _ | a
  · constructor
    · intro _
      constructor
      · rcases r with e | t <;> rfl
      · intro t ht
        subst ht
        exact ⟨rfl, rfl⟩
    · intro hfalse
      simp [refreshNeeded] at hfalse
  · have hrn : refreshNeeded (some a) now = tokenAgeExpired a now := rfl
    by_cases hexp : tokenAgeExpired a now
    · rw [hrn]
      constructor
      · intro _
        constructor
        · rcases r with e | t <;> simp [getTokenStep, hexp, getTokenRefresh]
        · intro t ht
          subst ht
          simp [getTokenStep, hexp, getTokenRefresh]
      · intro hfalse
        rw [hexp] at hfalse
        exact absurd hfalse (by simp)
    · rw [hrn]
      constructor
      · intro htrue
        exact absurd htrue (by simp [hexp])
      · intro _
        refine ⟨?_, ?_, a, rfl, ?_⟩ <;> simp [getTokenStep, hexp]

/-- C4 witness: with no held token at time 0 and a successful refresh, one
refresh call is made and its result is stored and returned. -/
theorem getToken_acquire_policy_witness :
    (getTokenStep none 0 (Except.ok sampleAuth)).refreshCalls = 1 ∧
    (getTokenStep none 0 (Except.ok sampleAuth)).state = some sampleAuth ∧
    (getTokenStep none 0 (Except.ok sampleAuth)).outcome = TokenOutcome.resolved sampleAuth := by
  have h := getToken_acquire_policy none 0 (Except.ok sampleAuth)
  exact ⟨(h.1 rfl).1, ((h.1 rfl).2 sampleAuth rfl).1, ((h.1 rfl).2 sampleAuth rfl).2⟩

/-- C5 counterexample: two concurrent getToken calls whose synchronous
checks both run before either refresh response arrives, starting with no
held token: both observe the absent credential and each issues its own
createToken request — two refresh calls, not one. -/
theorem concurrent_acquire_double_refresh_cex :
    refreshNeeded none 0 = true ∧
    (acquireRun { auth := none, refreshCalls := 0 }
      [AcquireEv.check 0, AcquireEv.check 0]).refreshCalls = 2 ∧
    (2 : Nat) ≠ 1 := by
  refine ⟨rfl, rfl, by decide⟩

/-- Auxiliary: a block of getToken checks that all observe the same absent
or expired credential adds one refresh call each and leaves the held token
unchanged. -/
theorem acquireRun_check_replicate (now : Nat) :
    ∀ (n : Nat) (s : RefreshLedger), refreshNeeded s.auth now = true →
      acquireRun s (List.replicate n (AcquireEv.check now)) =
        { auth := s.auth, refreshCalls := s.refreshCalls + n } := by
  intro n
  induction n with
  | zero => intro s _; simp [acquireRun]
  | succ m ih =>
      intro s h
      rw [List.replicate_succ]
      show acquireRun (acquireStep s (AcquireEv.check now))
        (List.replicate m (AcquireEv.check now)) = _
      rw [show acquireStep s (AcquireEv.check now)
            = { auth := s.auth, refreshCalls := s.refreshCalls + 1 } by
          simp [acquireStep, h]]
      rw [ih { auth := s.auth, refreshCalls := s.refreshCalls + 1 } h]
      simp
      omega

/-- C5 amended: refresh is not single-flight — given N concurrent getToken
calls that each observe an absent or expired credential before any refresh
completes, every one of them issues its own createToken request, for N
refresh requests in total. -/
theorem concurrent_acquire_refresh_count (held : Option Auth) (now n : Nat)
    (h : refreshNeeded held now = true) :
    (acquireRun { auth := held, refreshCalls := 0 }
      (List.replicate n (AcquireEv.check now))).refreshCalls = n := by
  rw [acquireRun_check_replicate now n { auth := held, refreshCalls := 0 } h]
  simp

/-- C5 witness: three concurrent acquires on an empty cache make three
refresh calls. -/
theorem concurrent_acquire_refresh_count_witness :
    (acquireRun { auth := none, refreshCalls := 0 }
      (List.replicate 3 (AcquireEv.check 0))).refreshCalls = 3 :=
  concurrent_acquire_refresh_count none 0 3 rfl

/-- C6 counterexample: with no held token and the refresh failing (issuer
unreachable), the getToken promise neither resolves nor rejects — it stays
pending forever instead of settling with an error. -/
theorem getToken_refresh_failure_pending_cex :
    (getTokenStep none 0 (Except.error "ECONNREFUSED")).outcome = TokenOutcome.pending ∧
    (∀ e, TokenOutcome.pending ≠ TokenOutcome.rejected e) ∧
    (∀ a, TokenOutcome.pending ≠ TokenOutcome.resolved a) := by
  refine ⟨rfl, ?_, ?_⟩ <;> intro x h <;> exact TokenOutcome.noConfusion h

/-- C6 amended: whenever a refresh is needed and the issuing endpoint
cannot be reached or answers a non-success status, getToken issues the one
refresh attempt, leaves the held credential unchanged, and its returned
promise never settles — the createToken rejection is swallowed by a
logging catch handler and `reject` is never called. -/
theorem getToken_refresh_failure_never_settles (held : Option Auth) (now : Nat)
    (e : String) (h : refreshNeeded held now = true) :
    (getTokenStep held now (Except.error e)).outcome = TokenOutcome.pending ∧
    (getTokenStep held now (Except.error e)).state = held ∧
    (getTokenStep held now (Except.error e)).refreshCalls = 1 := by
  rcases held with _ | a
  · exact ⟨rfl, rfl, rfl⟩
  · have hexp : tokenAgeExpired a now = true := h
    simp [getTokenStep, hexp, getTokenRefresh]

/-- C6 witness: the amended statement at the concrete unreachable-issuer
input, with the failing fetch produced by createToken itself. -/
theorem getToken_refresh_failure_never_settles_witness :
    (getTokenStep none 0
      (createTokenResult
        { error := some "ECONNREFUSED", statusCode := 0, access_token := 0,
          token_type := "", expires_in := 0 } 0)).outcome = TokenOutcome.pending :=
  (getToken_refresh_failure_never_settles none 0 "ECONNREFUSED" rfl).1

/-- C7 counterexample: interval 30, cycle duration 45.  At time 60 the
cycle started by the tick at 30 is still running and the tick at 60 starts
another one anyway: two cycles are active at the same instant, and the
following tick was not skipped. -/
theorem scheduler_overlap_cex :
    activeCycleCount 30 45 60 = 2 ∧ ¬ activeCycleCount 30 45 60 ≤ 1 := by
  refine ⟨by decide, by decide⟩

/-- C7 amended: the scheduler is a bare setInterval with no overlap guard —
whenever a cycle's duration d exceeds the interval T, the tick at time 2T
fires while the cycle started at T is still active, so exactly two cycles
are active at that instant; no tick is skipped. -/
theorem scheduler_overlapping_cycles (T d : Nat) (hT : 0 < T) (hd : T < d) :
    activeCycleCount T d (2 * T) = 2 := by
  unfold activeCycleCount
  have h2 : 2 * T / T + 1 = 3 := by
    rw [Nat.mul_div_cancel 2 hT]
  rw [h2]
  have hr : List.range 3 = [0, 1, 2] := by decide
  rw [hr]
  have h0 : (decide (1 ≤ (0 : Nat)) && decide (0 * T ≤ 2 * T) && decide (2 * T < 0 * T + d))
      = false := by
    simp
  have h1 : (decide (1 ≤ (1 : Nat)) && decide (1 * T ≤ 2 * T) && decide (2 * T < 1 * T + d))
      = true := by
    simp only [Bool.and_eq_true, decide_eq_true_eq]
    omega
  have hcc : (decide (1 ≤ (2 : Nat)) && decide (2 * T ≤ 2 * T) && decide (2 * T < 2 * T + d))
      = true := by
    simp only [Bool.and_eq_true, decide_eq_true_eq]
    omega
  simp only [List.filter, h0, h1, hcc]
  rfl

/-- C7 witness: the amended statement at interval 10 and duration 25. -/
theorem scheduler_overlapping_cycles_witness :
    activeCycleCount 10 25 (2 * 10) = 2 :=
  scheduler_overlapping_cycles 10 25 (by decide) (by decide)

/-- Auxiliary: a search stream whose first terminating signal is an error
makes processSearch reject with that error, whatever has been accumulated. -/
theorem processSearch_error_rejects :
    ∀ (sigs : List LdapSignal) (acc : StrMap), errorBeforeEnd sigs = true →
      ∃ m, processSearch acc sigs = SearchOutcome.rejected m := by
  intro sigs
  induction sigs with
  | nil => intro acc h; exact absurd h (by simp [errorBeforeEnd])
  | cons sig rest ih =>
      intro acc h
      cases sig with
      | searchEntry cn sn => exact ih (objSet acc cn sn) h
      | errorSig m => exact ⟨m, rfl⟩
      | endSig => exact absurd h (by simp [errorBeforeEnd])

/-- Auxiliary: processSearch resolves only when the stream's first
terminating signal is the end-of-results signal. -/
theorem processSearch_resolved_end :
    ∀ (sigs : List LdapSignal) (acc : StrMap) (u : StrMap),
      processSearch acc sigs = SearchOutcome.resolved u → endBeforeError sigs = true := by
  intro sigs
  induction sigs with
  | nil => intro acc u h; exact absurd h (by simp [processSearch])
  | cons sig rest ih =>
      intro acc u h
      cases sig with
      | searchEntry cn sn => exact ih (objSet acc cn sn) u h
      | errorSig m => exact absurd h (by simp [processSearch])
      | endSig => rfl

/-- C8: a directory read resolves with an identity set only when the bind
and search succeed and the stream's explicit end-of-results signal arrives
before any error signal; and whenever an error signal arrives first, the
fetch is rejected with that error and the partially accumulated entries
are never resolved to the caller. -/
theorem getUsersLDAP_no_partial_results (bindErr searchErr : Option String)
    (sigs : List LdapSignal) :
    (∀ u, getUsersLDAPRun bindErr searchErr sigs = SearchOutcome.resolved u →
      bindErr = none ∧ searchErr = none ∧ endBeforeError sigs = true) ∧
    (bindErr = none → searchErr = none → errorBeforeEnd sigs = true →
      (∃ m, getUsersLDAPRun bindErr searchErr sigs = SearchOutcome.rejected m) ∧
      ∀ u, getUsersLDAPRun bindErr searchErr sigs ≠ SearchOutcome.resolved u) := by
  constructor
  · intro u h
    rcases bindErr with _ | be
    · rcases searchErr with _ | se
      · exact ⟨rfl, rfl, processSearch_resolved_end sigs [] u h⟩
      · exact absurd h (by simp [getUsersLDAPRun])
    · exact absurd h (by simp [getUsersLDAPRun])
  · intro hb hs herr
    subst hb
    subst hs
    rcases processSearch_error_rejects sigs [] herr with ⟨m, hm⟩
    refine ⟨⟨m, hm⟩, ?_⟩
    intro u hu
    rw [show getUsersLDAPRun none none sigs = processSearch [] sigs from rfl, hm] at hu
    exact SearchOutcome.noConfusion hu

/-- C8 witness: a stream that accumulates alice and then signals an error
before end-of-results is rejected, not resolved. -/
theorem getUsersLDAP_no_partial_results_witness :
    (∃ m, getUsersLDAPRun none none
        [LdapSignal.searchEntry "alice" "Smith", LdapSignal.errorSig "boom",
         LdapSignal.endSig] = SearchOutcome.rejected m) ∧
    ∀ u, getUsersLDAPRun none none
        [LdapSignal.searchEntry "alice" "Smith", LdapSignal.errorSig "boom",
         LdapSignal.endSig] ≠ SearchOutcome.resolved u :=
  (getUsersLDAP_no_partial_results none none
    [LdapSignal.searchEntry "alice" "Smith", LdapSignal.errorSig "boom",
     LdapSignal.endSig]).2 rfl rfl rfl

/-- C9 counterexample: a POST /users request with a known unexpired token
and a body carrying both username and surname.  The handler takes the
201 branch — but it writes `res.status = 201` as a property assignment
instead of calling Express's status method, so the HTTP status actually
sent is 200, not 201 (consistently, the sync client in promises.js treats
`res.statusCode == 200` as creation success).  The 400 and 401 branches
likewise transmit 200. -/
theorem postUsers_wire_status_cex :
    (postUsers sampleTokens (some "Bearer 123456")
      { username := some "bob", surname := some "Jones" } [] 0).1.wireStatus = 200 ∧
    (200 : Nat) ≠ 201 ∧
    (postUsers sampleTokens (some "Bearer 123456")
      { username := some "bob", surname := none } [] 0).1.wireStatus = 200 ∧
    (postUsers sampleTokens (some "Bearer 999999")
      { username := some "bob", surname := some "Jones" } [] 0).1.wireStatus = 200 := by
  refine ⟨rfl, by decide, rfl, rfl⟩

/-- C9 amended: the POST /users handler branches as the claim describes —
201 with the created record (server-stamped last_modified) appended to the
store on a known unexpired token and truthy username and surname, 400 on a
falsy field, 401 on an unknown or expired token — but those codes only
reach the overwritten `res.status` property: the transmitted HTTP status is
200 on every branch. -/
theorem postUsers_handler_spec (tokens : List (String × TokenRec))
    (header : Option String) (input : PostBody) (users : List UserRec) (now : Nat) :
    (postUsers tokens header input users now).1.wireStatus = 200 ∧
    (∀ tk, header.bind (fun h => tokens.lookup h) = some tk → now < tk.expires_in →
      jsTruthy input.username = true → jsTruthy input.surname = true →
      (postUsers tokens header input users now).1.statusProp = 201 ∧
      (postUsers tokens header input users now).1.body = RespBody.user
        { username := input.username.getD "", surname := input.surname.getD "",
          last_modified := now } ∧
      (postUsers tokens header input users now).2 = users ++
        [{ username := input.username.getD "", surname := input.surname.getD "",
           last_modified := now }]) ∧
    (∀ tk, header.bind (fun h => tokens.lookup h) = some tk → now < tk.expires_in →
      (jsTruthy input.username = false ∨ jsTruthy input.surname = false) →
      (postUsers tokens header input users now).1.statusProp = 400 ∧
      (postUsers tokens header input users now).2 = users) ∧
    ((∀ tk, header.bind (fun h => tokens.lookup h) = some tk → tk.expires_in ≤ now) →
      (postUsers tokens header input users now).1.statusProp = 401 ∧
      (postUsers tokens header input users now).2 = users) := by
  rcases hbind : header.bind (fun h => tokens.lookup h) with _ | tk
  · refine ⟨?_, ?_, ?_, ?_⟩
    · simp [postUsers, hbind]
    · intro tk htk
      exact absurd htk (by simp)
    · intro tk htk
      exact absurd htk (by simp)
    · intro _
      constructor <;> simp [postUsers, hbind]
  · by_cases hfresh : now < tk.expires_in
    · by_cases hu : jsTruthy input.username
      · by_cases hs : jsTruthy input.surname
        · refine ⟨?_, ?_, ?_, ?_⟩
          · simp [postUsers, hbind, hfresh, hu, hs]
          · intro tk2 htk2 _ _ _
            constructor
            · simp [postUsers, hbind, hfresh, hu, hs]
            · constructor <;> simp [postUsers, hbind, hfresh, hu, hs]
          · intro tk2 htk2 _ hor
            rcases hor with hbad | hbad
            · rw [hu] at hbad
              exact absurd hbad (by simp)
            · rw [hs] at hbad
              exact absurd hbad (by simp)
          · intro hall
            have := hall tk rfl
            omega
        · have hs' : jsTruthy input.surname = false := by
            exact Bool.not_eq_true _ ▸ eq_false_of_ne_true hs
          refine ⟨?_, ?_, ?_, ?_⟩
          · simp [postUsers, hbind, hfresh, hu, hs']
          · intro tk2 htk2 _ _ hstrue
            rw [hs'] at hstrue
            exact absurd hstrue (by simp)
          · intro tk2 htk2 _ _
            constructor <;> simp [postUsers, hbind, hfresh, hu, hs']
          · intro hall
            have := hall tk rfl
            omega
      · have hu' : jsTruthy input.username = false := by
          exact Bool.not_eq_true _ ▸ eq_false_of_ne_true hu
        refine ⟨?_, ?_, ?_, ?_⟩
        · simp [postUsers, hbind, hfresh, hu']
        · intro tk2 htk2 _ hutrue _
          rw [hu'] at hutrue
          exact absurd hutrue (by simp)
        · intro tk2 htk2 _ _
          constructor <;> simp [postUsers, hbind, hfresh, hu']
        · intro hall
          have := hall tk rfl
          omega
    · refine ⟨?_, ?_, ?_, ?_⟩
      · simp [postUsers, hbind, hfresh]
      · intro tk2 htk2 hlt
        injection htk2 with htk2
        subst htk2
        exact absurd hlt hfresh
      · intro tk2 htk2 hlt
        injection htk2 with htk2
        subst htk2
        exact absurd hlt hfresh
      · intro _
        constructor <;> simp [postUsers, hbind, hfresh]

/-- C9 witness: the amended statement instantiated on a valid token and a
complete body yields the 201 branch with the server-stamped record. -/
theorem postUsers_handler_spec_witness :
    (postUsers sampleTokens (some "Bearer 123456")
      { username := some "bob", surname := some "Jones" } [] 5).1.statusProp = 201 ∧
    (postUsers sampleTokens (some "Bearer 123456")
      { username := some "bob", surname := some "Jones" } [] 5).2 =
      [{ username := "bob", surname := "Jones", last_modified := 5 }] := by
  have h := postUsers_handler_spec sampleTokens (some "Bearer 123456")
    { username := some "bob", surname := some "Jones" } [] 5
  have hb := h.2.1 { expires_in := 1000, access_token := 123456, token_type := "Bearer" }
    (by decide) (by decide) rfl rfl
  exact ⟨hb.1, hb.2.2⟩
